import Mathlib

/-!
Shallow embedding of the viper tracer (`src/main.py`).

Mutable CPython frames are modelled by explicit state passing: a `Heap` maps
frame identities to their current contents, and code that re-reads a live
frame takes the heap at the moment of the read.  Exceptions are modelled with
`Except PyErr`.  The `while` loop in `ViperFrame.parents` is modelled with
explicit fuel; all theorems about it carry a hypothesis that the fuel covers
the actual (finite) stack depth, matching CPython's finite acyclic frame
chains.
-/

deriving instance DecidableEq for Except

/-- A Python runtime value, as far as the tracer observes it. -/
inductive PyVal where
  | int (n : Int)
  | str (s : String)
  | pyNone
  | obj (tag : String)
deriving DecidableEq

/-- Model of the external `cheap_repr` collaborator (imported from the
`cheap_repr` package in `src/main.py`): a total value-to-string summarizer.
Its exact output format is out of scope; the model only needs it to be a
fixed total function. -/
def cheap_repr : PyVal → String
  | .int n => toString n
  | .str s => "'" ++ s ++ "'"
  | .pyNone => "None"
  | .obj tag => tag

/-- Python exceptions raised by the embedded code. -/
inductive PyErr where
  | exception (msg : String)
  | notImplementedError (msg : String)
  | keyError (key : String)
deriving DecidableEq

/-- Identity of a live CPython frame object. -/
abbrev FrameId := Nat

/-- Contents of a live frame at one instant: code-object fields (`co_name`,
`co_filename`, declared argument names as returned by
`inspect.getargvalues(frame).args`), the current line, the current locals,
and the caller link `f_back` (`none` at the stack base). -/
structure FrameData where
  co_name : String
  f_lineno : Int
  co_filename : String
  argNames : List String
  f_locals : List (String × PyVal)
  f_back : Option FrameId
deriving DecidableEq

/-- The live-frame store.  A frame mutating over time is modelled by passing
a different `Heap` at a later observation point; the identity (`FrameId`)
of the frame object stays fixed.  References never dangle in CPython (the
holder keeps the frame alive), so the store is total. -/
abbrev Heap := FrameId → FrameData

/-- `ViperFrame` (src/main.py:14-31): retains the live frame handle and the
three identity fields read in `__init__`. -/
structure ViperFrame where
  frame : FrameId
  fn_name : String
  fn_line : Int
  fn_filename : String
deriving DecidableEq

/-- `ViperFrame.__init__` (src/main.py:24-31): stores the live frame and
eagerly reads `f_code.co_name`, `f_lineno`, `f_code.co_filename`.  (The
dead `if frame is None: return` after those reads is dropped: the model
only receives valid frames, as `sys.settrace` guarantees.) -/
def ViperFrame.init (h : Heap) (fid : FrameId) : ViperFrame :=
  { frame := fid,
    fn_name := (h fid).co_name,
    fn_line := (h fid).f_lineno,
    fn_filename := (h fid).co_filename }

/-- `ViperFrame.arguments` (src/main.py:33-40): calls
`inspect.getargvalues(self.frame)` on the retained live frame at call time,
then maps each declared argument name to `cheap_repr` of its current local
value.  A declared argument missing from the locals raises `KeyError`.  The
heap argument is the state of the live frames at the moment of this call,
not at snapshot-construction time. -/
def ViperFrame.arguments (vf : ViperFrame) (h : Heap) :
    Except PyErr (List (String × String)) :=
  (h vf.frame).argNames.mapM (fun a =>
    match (h vf.frame).f_locals.lookup a with
    | some v => Except.ok (a, cheap_repr v)
    | none => Except.error (PyErr.keyError a))

/-- The `while True` loop of `ViperFrame.parents` (src/main.py:47-58), with
explicit fuel.  At loop entry `tgt` is the current candidate; the body
breaks if `tgt` is `None`, advances `tgt := tgt.f_back`, breaks if that is
`None`, and otherwise appends the transformed snapshot of the advanced
frame and repeats. -/
def parentsLoop {α : Type} (h : Heap) (t : ViperFrame → α) :
    Nat → Option FrameId → List α
  | _, none => []
  | 0, some _ => []
  | fuel + 1, some fid =>
    match (h fid).f_back with
    | none => []
    | some fid2 => t (ViperFrame.init h fid2) :: parentsLoop h t fuel (some fid2)

/-- `ViperFrame.parents` (src/main.py:42-58): starts the loop at
`self.frame.f_back` (read from the live frame at call time). -/
def ViperFrame.parents {α : Type} (vf : ViperFrame) (h : Heap) (fuel : Nat)
    (t : ViperFrame → α) : List α :=
  parentsLoop h t fuel ((h vf.frame).f_back)

/-- `ViperFrame.transform` (src/main.py:60-61). -/
def ViperFrame.transform {α : Type} (vf : ViperFrame) (t : ViperFrame → α) : α :=
  t vf

/-- The caller chain from `tgt` (inclusive, nearest frame first), as stored
in the heap.  Analysis helper used to state what `parents` produces. -/
def chainIds (h : Heap) : Nat → Option FrameId → List FrameId
  | _, none => []
  | 0, some _ => []
  | fuel + 1, some fid => fid :: chainIds h fuel ((h fid).f_back)

/-- Number of frames on the chain starting at `tgt` (inclusive); `none` if
the fuel does not reach the stack base.  Analysis helper. -/
def stackDepth (h : Heap) : Nat → Option FrameId → Option Nat
  | _, none => some 0
  | 0, some _ => none
  | fuel + 1, some fid => (stackDepth h fuel ((h fid).f_back)).map (· + 1)

/-- Which of the seven `ViperEvent` subclasses an event object belongs to. -/
inductive EventClass where
  | call
  | line
  | ret
  | exc
  | cCall
  | cReturn
  | cException
deriving DecidableEq

/-- What a `ViperEvent` subclass stored in its `frame` attribute: six of the
seven constructors wrap the input in a `ViperFrame` snapshot; a raw live
frame handle is also representable because `ViperEventCException.__init__`
(src/main.py:186) assigns the unwrapped frame. -/
inductive FrameField where
  | snapshot (vf : ViperFrame)
  | raw (fid : FrameId)
deriving DecidableEq

/-- An instance of one of the seven `ViperEvent` subclasses
(src/main.py:102-195): the class tag, the stored `frame` attribute, the
stored `event` string, and the stored `arg` (already summarized by
`cheap_repr` in every `__init__`). -/
structure ViperEventObj where
  cls : EventClass
  frame : FrameField
  event : String
  arg : String
deriving DecidableEq

/-- `ViperEvent.new` (src/main.py:71-90): string dispatch over the seven
event kinds, constructing the matching subclass; any other kind name raises
`Exception('event ' + event + ' not supported')`.  Each branch inlines the
corresponding subclass `__init__` (src/main.py:102-195). -/
def ViperEvent.new (h : Heap) (frame : FrameId) (event : String) (arg : PyVal) :
    Except PyErr ViperEventObj :=
  if event = "call" then
    Except.ok { cls := .call, frame := .snapshot (ViperFrame.init h frame),
                event := event, arg := cheap_repr arg }
  else if event = "line" then
    Except.ok { cls := .line, frame := .snapshot (ViperFrame.init h frame),
                event := event, arg := cheap_repr arg }
  else if event = "return" then
    Except.ok { cls := .ret, frame := .snapshot (ViperFrame.init h frame),
                event := event, arg := cheap_repr arg }
  else if event = "exception" then
    Except.ok { cls := .exc, frame := .snapshot (ViperFrame.init h frame),
                event := event, arg := cheap_repr arg }
  else if event = "c_call" then
    Except.ok { cls := .cCall, frame := .snapshot (ViperFrame.init h frame),
                event := event, arg := cheap_repr arg }
  else if event = "c_return" then
    Except.ok { cls := .cReturn, frame := .snapshot (ViperFrame.init h frame),
                event := event, arg := cheap_repr arg }
  else if event = "c_exception" then
    Except.ok { cls := .cException, frame := .raw frame,
                event := event, arg := cheap_repr arg }
  else
    Except.error (PyErr.exception ("event " ++ event ++ " not supported"))

/-- The seven event-kind names recognized by `ViperEvent.new`. -/
def supportedKinds : List String :=
  ["call", "line", "return", "exception", "c_call", "c_return", "c_exception"]

/-- A JSON-serializable output value produced by the transformers.  A
Python `float` (only used for `datetime.timestamp()`) is represented by its
exact rational value. -/
inductive OutVal where
  | str (s : String)
  | int (n : Int)
  | float (q : Rat)
  | list (items : List OutVal)
  | dict (entries : List (String × OutVal))

/-- An insertion-ordered Python dict of output values. -/
abbrev OutMap := List (String × OutVal)

/-- The wall clock sampled by `datetime.datetime.now()` during one
transformer call: the `isoformat()` string and the `timestamp()` value. -/
structure Clock where
  iso : String
  epoch : Rat

/-- `ViperParentFrame.transform` (src/main.py:253-262). -/
def ViperParentFrame.transform (clock : Clock) (frame : ViperFrame) : OutMap :=
  [("type", OutVal.str "parent-frame"),
   ("fn_name", OutVal.str frame.fn_name),
   ("fn_line", OutVal.int frame.fn_line),
   ("fn_filename", OutVal.str frame.fn_filename),
   ("time", OutVal.str clock.iso),
   ("epoch", OutVal.float clock.epoch)]

/-- `ViperChildFrame.transform` (src/main.py:264-278): builds the child
shape, walking the parent chain with the `ViperParentFrame` transformer and
wrapping the frame's argument mapping in a one-element list.  A `KeyError`
from `frame.arguments()` propagates. -/
def ViperChildFrame.transform (h : Heap) (fuel : Nat) (clock : Clock)
    (frame : ViperFrame) : Except PyErr OutMap :=
  match frame.arguments h with
  | Except.error e => Except.error e
  | Except.ok args =>
    Except.ok
      [("type", OutVal.str "child-frame"),
       ("parents", OutVal.list (frame.parents h fuel
          (fun p => OutVal.dict (ViperParentFrame.transform clock p)))),
       ("fn_name", OutVal.str frame.fn_name),
       ("fn_line", OutVal.int frame.fn_line),
       ("args", OutVal.list [OutVal.dict (args.map (fun kv => (kv.1, OutVal.str kv.2)))]),
       ("fn_filename", OutVal.str frame.fn_filename),
       ("time", OutVal.str clock.iso),
       ("epoch", OutVal.float clock.epoch)]

/-- The (filter, transform, writer) strategy triple bound to one `Viper`
engine; each stage may raise. -/
structure PipelineFns where
  filter : ViperEventObj → Except PyErr Bool
  transform : ViperEventObj → Except PyErr OutMap
  writer : OutMap → Except PyErr Unit

/-- `Viper.filter` (src/main.py:210-212): the default filter body, run when
the caller supplies no override: it raises `NotImplementedError`. -/
def Viper.filter (_ev : ViperEventObj) : Except PyErr Bool :=
  Except.error (PyErr.notImplementedError "you need to implement filter")

/-- `Viper.transform` (src/main.py:214-216): the default transform body: it
raises `NotImplementedError`. -/
def Viper.transform (_ev : ViperEventObj) : Except PyErr OutMap :=
  Except.error (PyErr.notImplementedError "you need to implement transform")

/-- `Viper.writer` (src/main.py:218-220): prints a JSON line to stderr and
returns; the stream effect is out of scope, so the model records success. -/
def Viper.writer (_m : OutMap) : Except PyErr Unit :=
  Except.ok ()

/-- The pipeline of a `Viper` instance whose subclass overrides nothing. -/
def defaultPipeline : PipelineFns :=
  { filter := Viper.filter, transform := Viper.transform, writer := Viper.writer }

/-- The process-wide `sys.settrace` slot: `none` when no hook is installed
(engine `Stopped`), `some e` when engine `e`'s wrapper is bound (`Running`). -/
abbrev HookSlot := Option Nat

/-- `Viper.start_trace` (src/main.py:222-237) as its effect on the hook
slot: binds the slot to this engine's freshly created `trace_wrapper`. -/
def Viper.start_trace (engineId : Nat) (_s : HookSlot) : HookSlot :=
  some engineId

/-- `Viper.stop_trace` (src/main.py:239-241): `sys.settrace(None)`. -/
def Viper.stop_trace (_s : HookSlot) : HookSlot :=
  none

/-- One observable step of `trace_wrapper`'s body. -/
inductive Step where
  | setTrace (enabled : Bool)
  | classifyStep
  | filterStep
  | transformStep
  | writeStep
deriving DecidableEq

/-- Whether a step is part of the engine's own processing (as opposed to a
hook (un)install). -/
def Step.isProcessing : Step → Bool
  | .classifyStep => true
  | .filterStep => true
  | .transformStep => true
  | .writeStep => true
  | .setTrace _ => false

/-- One run of `trace_wrapper` on one occurrence: the executed steps (each
paired with whether the hook was installed while it executed), the hook
state when control returns to the runtime, and the outcome (`ok` or the
propagating exception). -/
structure WrapperRun where
  steps : List (Step × Bool)
  hookAfter : Bool
  outcome : Except PyErr Unit

/-- Instrumented interpretation of `trace_wrapper` (src/main.py:224-235) on
one occurrence.  The wrapper runs with the hook installed; it first calls
`self.stop_trace()`, then classifies via `ViperEvent.new`, then filters; if
the filter keeps the event it transforms and writes; finally it calls
`self.start_trace()`.  Any exception propagates immediately, skipping the
remaining steps. -/
def trace_wrapper (p : PipelineFns) (h : Heap) (fid : FrameId) (event : String)
    (arg : PyVal) : WrapperRun :=
  match ViperEvent.new h fid event arg with
  | Except.error e =>
    { steps := [(Step.setTrace false, true), (Step.classifyStep, false)],
      hookAfter := false,
      outcome := Except.error e }
  | Except.ok ev =>
    match p.filter ev with
    | Except.error e =>
      { steps := [(Step.setTrace false, true), (Step.classifyStep, false),
                  (Step.filterStep, false)],
        hookAfter := false,
        outcome := Except.error e }
    | Except.ok false =>
      { steps := [(Step.setTrace false, true), (Step.classifyStep, false),
                  (Step.filterStep, false), (Step.setTrace true, false)],
        hookAfter := true,
        outcome := Except.ok () }
    | Except.ok true =>
      match p.transform ev with
      | Except.error e =>
        { steps := [(Step.setTrace false, true), (Step.classifyStep, false),
                    (Step.filterStep, false), (Step.transformStep, false)],
          hookAfter := false,
          outcome := Except.error e }
      | Except.ok m =>
        match p.writer m with
        | Except.error e =>
          { steps := [(Step.setTrace false, true), (Step.classifyStep, false),
                      (Step.filterStep, false), (Step.transformStep, false),
                      (Step.writeStep, false)],
            hookAfter := false,
            outcome := Except.error e }
        | Except.ok _ =>
          { steps := [(Step.setTrace false, true), (Step.classifyStep, false),
                      (Step.filterStep, false), (Step.transformStep, false),
                      (Step.writeStep, false), (Step.setTrace true, false)],
            hookAfter := true,
            outcome := Except.ok () }

/-- One of the three pipeline stages raised `e` while processing `ev`:
either the filter raised, or the filter kept the event and the transform
raised, or the filter kept it, the transform produced `m`, and the writer
raised on `m`. -/
def StageRaises (p : PipelineFns) (ev : ViperEventObj) (e : PyErr) : Prop :=
  p.filter ev = Except.error e
  ∨ (p.filter ev = Except.ok true ∧ p.transform ev = Except.error e)
  ∨ (p.filter ev = Except.ok true
      ∧ ∃ m, p.transform ev = Except.ok m ∧ p.writer m = Except.error e)

/-- Frame contents mirroring the workload frame of `a(1)`
(src/main.py:283-290): one declared argument `num`, currently `1`. -/
def fdA : FrameData :=
  { co_name := "a", f_lineno := 283, co_filename := "main.py",
    argNames := ["num"], f_locals := [("num", PyVal.int 1)], f_back := none }

/-- A heap in which every frame currently holds `fdA`. -/
def h1 : Heap := fun _ => fdA

/-- `h1` after the live frame `0` mutates its local `num` from `1` to `2`;
all other frames and all non-locals fields are unchanged. -/
def h2 : Heap := fun fid =>
  if fid = 0 then { fdA with f_locals := [("num", PyVal.int 2)] } else h1 fid

/-- A heap holding a linear call stack of depth four: frame `0` was called
by `1`, which was called by `2`, which was called by `3` (the stack base). -/
def h4 : Heap := fun fid =>
  if fid < 3 then { fdA with f_back := some (fid + 1) } else fdA

/-- The event object `ViperEvent.new` builds for a `call` occurrence on
frame `0` of `h1` with payload `1`. -/
def evCall1 : ViperEventObj :=
  { cls := .call, frame := .snapshot (ViperFrame.init h1 0),
    event := "call", arg := cheap_repr (PyVal.int 1) }

/-- A pipeline whose filter rejects every event. -/
def pReject : PipelineFns :=
  { filter := fun _ => Except.ok false,
    transform := fun _ => Except.ok [],
    writer := fun _ => Except.ok () }

/-- A pipeline whose writer raises. -/
def pBoom : PipelineFns :=
  { filter := fun _ => Except.ok true,
    transform := fun _ => Except.ok [],
    writer := fun _ => Except.error (PyErr.exception "boom") }

/-- A fixed wall clock for concrete evaluations. -/
def clock0 : Clock := { iso := "1970-01-01T00:00:00", epoch := 0 }

/-- C1: for each of the seven recognized kind names, `ViperEvent.new`
returns exactly one event object whose `event` attribute equals the input
kind name; for any kind name outside the seven it raises (the
`UnsupportedEventKind` error of the spec, realized as
`Exception('event ... not supported')`) instead of returning. -/
theorem viperEvent_new_classifies (h : Heap) (fid : FrameId) (event : String)
    (arg : PyVal) :
    (event ∈ supportedKinds →
      (ViperEvent.new h fid event arg).map ViperEventObj.event = Except.ok event)
    ∧ (event ∉ supportedKinds →
      ViperEvent.new h fid event arg =
        Except.error (PyErr.exception ("event " ++ event ++ " not supported"))) := by
  constructor
  · intro hmem
    simp only [supportedKinds, List.mem_cons, List.not_mem_nil, or_false] at hmem
    rcases hmem with rfl | rfl | rfl | rfl | rfl | rfl | rfl <;> rfl
  · intro hmem
    simp only [supportedKinds, List.mem_cons, List.not_mem_nil, or_false,
      not_or] at hmem
    obtain ⟨e1, e2, e3, e4, e5, e6, e7⟩ := hmem
    simp [ViperEvent.new, e1, e2, e3, e4, e5, e6, e7]

/-- Witness for C1: instantiated at the kind `call` (recognized) and at the
kind `bogus` (unrecognized). -/
theorem viperEvent_new_classifies_w :
    (ViperEvent.new h1 0 "call" (PyVal.int 1)).map ViperEventObj.event
      = Except.ok "call"
    ∧ ViperEvent.new h1 0 "bogus" (PyVal.int 1)
      = Except.error (PyErr.exception ("event " ++ "bogus" ++ " not supported")) :=
  ⟨(viperEvent_new_classifies h1 0 "call" (PyVal.int 1)).1 (by decide),
   (viperEvent_new_classifies h1 0 "bogus" (PyVal.int 1)).2 (by decide)⟩

/-- C2: evaluating the classifier at the failing input `c_exception` shows
`ViperEventCException` stores the raw live frame handle in its `frame`
attribute (src/main.py:186, `self.frame = frame`), while the `call` variant
(like the other five) stores a `ViperFrame` snapshot — contradicting the
claim, the spec, and the parent class's own `frame: ViperFrame` annotation
(src/main.py:67). -/
theorem viperEventCException_keeps_raw_frame :
    (ViperEvent.new h1 0 "c_exception" (PyVal.int 1)).map ViperEventObj.frame
      = Except.ok (FrameField.raw 0)
    ∧ (ViperEvent.new h1 0 "call" (PyVal.int 1)).map ViperEventObj.frame
      = Except.ok (FrameField.snapshot (ViperFrame.init h1 0)) :=
  ⟨rfl, rfl⟩

/-- C3 counterexample: take the frame `0` captured under heap `h1`
(local `num = 1`) and let the live frame mutate `num` to `2` (heap `h2`,
which differs from `h1` only in frame `0`'s locals).  The snapshot's
argument mapping, read after the mutation, differs from the one read before
it: the mapping is not extracted eagerly at capture time. -/
theorem viperFrame_arguments_not_eager :
    (ViperFrame.init h1 0).arguments h1 = Except.ok [("num", "1")]
    ∧ (ViperFrame.init h1 0).arguments h2 = Except.ok [("num", "2")]
    ∧ (ViperFrame.init h1 0).arguments h2 ≠ (ViperFrame.init h1 0).arguments h1 := by
  refine ⟨rfl, rfl, ?_⟩
  decide

/-- C3 as amended: the identity fields (`fn_name`, `fn_line`,
`fn_filename`) are captured eagerly at construction, but the argument
mapping is computed lazily: `arguments()` re-reads the retained live frame
at call time, so its result depends only on the heap at the call (`hc`)
and not on the heap at capture (`h`) — later mutation of the live frame's
locals does change the snapshot's argument mapping. -/
theorem viperFrame_eager_fields_lazy_args (h hc : Heap) (fid : FrameId) :
    (ViperFrame.init h fid).fn_name = (h fid).co_name
    ∧ (ViperFrame.init h fid).fn_line = (h fid).f_lineno
    ∧ (ViperFrame.init h fid).fn_filename = (h fid).co_filename
    ∧ (ViperFrame.init h fid).arguments hc = (ViperFrame.init hc fid).arguments hc :=
  ⟨rfl, rfl, rfl, rfl⟩

/-- C6: `stop_trace` is idempotent and leaves the hook slot empty
(`Stopped`); calling `start_trace` twice in a row rebinds the slot to this
engine's wrapper without error and leaves it bound (`Running`). -/
theorem viper_stop_idempotent_start_rebinds (s : HookSlot) (e : Nat) :
    Viper.stop_trace (Viper.stop_trace s) = Viper.stop_trace s
    ∧ Viper.stop_trace s = (none : HookSlot)
    ∧ Viper.start_trace e (Viper.start_trace e s) = Viper.start_trace e s
    ∧ Viper.start_trace e s = some e :=
  ⟨rfl, rfl, rfl, rfl⟩

/-- `stackDepth` is monotone in fuel: once the chain is fully measured,
more fuel gives the same depth. -/
theorem stackDepth_mono (h : Heap) :
    ∀ (f fB : Nat) (tgt : Option FrameId) (n : Nat),
      stackDepth h f tgt = some n → f ≤ fB → stackDepth h fB tgt = some n := by
  intro f
  induction f with
  | zero =>
    intro fB tgt n hd _
    cases tgt with
    | none =>
      simp only [stackDepth, Option.some.injEq] at hd
      simp [stackDepth, hd]
    | some fid => simp [stackDepth] at hd
  | succ g ih =>
    intro fB tgt n hd hle
    cases tgt with
    | none =>
      simp only [stackDepth, Option.some.injEq] at hd
      simp [stackDepth, hd]
    | some fid =>
      simp only [stackDepth, Option.map_eq_some'] at hd
      obtain ⟨m, hm, rfl⟩ := hd
      obtain ⟨gB, rfl⟩ : ∃ gB, fB = gB + 1 := by
        cases fB with
        | zero => omega
        | succ gB => exact ⟨gB, rfl⟩
      have hgB : g ≤ gB := by omega
      simp [stackDepth, ih gB ((h fid).f_back) m hm hgB]

/-- The caller chain recorded by `chainIds` has exactly the measured number
of frames. -/
theorem chainIds_length (h : Heap) :
    ∀ (f : Nat) (tgt : Option FrameId) (n : Nat),
      stackDepth h f tgt = some n → (chainIds h f tgt).length = n := by
  intro f
  induction f with
  | zero =>
    intro tgt n hd
    cases tgt with
    | none =>
      simp only [stackDepth, Option.some.injEq] at hd
      simp [chainIds, hd]
    | some fid => simp [stackDepth] at hd
  | succ g ih =>
    intro tgt n hd
    cases tgt with
    | none =>
      simp only [stackDepth, Option.some.injEq] at hd
      simp [chainIds, hd]
    | some fid =>
      simp only [stackDepth, Option.map_eq_some'] at hd
      obtain ⟨m, hm, rfl⟩ := hd
      simp [chainIds, ih ((h fid).f_back) m hm]

/-- One unfolding of the parents loop when the current frame has a caller. -/
theorem parentsLoop_cons {α : Type} (h : Heap) (t : ViperFrame → α) (fuel : Nat)
    (fid fid2 : FrameId) (hb : (h fid).f_back = some fid2) :
    parentsLoop h t (fuel + 1) (some fid)
      = t (ViperFrame.init h fid2) :: parentsLoop h t fuel (some fid2) := by
  simp [parentsLoop, hb]

/-- On a fully measured chain, the parents loop produces the transformed
snapshots of every frame on the chain except the first one, in chain order
(nearest frame first). -/
theorem parentsLoop_eq_chain {α : Type} (h : Heap) (t : ViperFrame → α) :
    ∀ (f : Nat) (tgt : Option FrameId) (n : Nat),
      stackDepth h f tgt = some n →
      parentsLoop h t f tgt
        = ((chainIds h f tgt).drop 1).map (fun i => t (ViperFrame.init h i)) := by
  intro f
  induction f with
  | zero =>
    intro tgt n hd
    cases tgt with
    | none => simp [parentsLoop, chainIds]
    | some fid => simp [stackDepth] at hd
  | succ g ih =>
    intro tgt n hd
    cases tgt with
    | none => simp [parentsLoop, chainIds]
    | some fid =>
      simp only [stackDepth, Option.map_eq_some'] at hd
      obtain ⟨m, hm, rfl⟩ := hd
      cases hb : (h fid).f_back with
      | none =>
        rw [hb] at hm
        simp [parentsLoop, chainIds, hb]
      | some fid2 =>
        rw [hb] at hm
        obtain ⟨g2, rfl⟩ : ∃ g2, g = g2 + 1 := by
          cases g with
          | zero => simp [stackDepth] at hm
          | succ g2 => exact ⟨g2, rfl⟩
        have htail := ih (some fid2) m hm
        rw [parentsLoop_cons h t (g2 + 1) fid fid2 hb, htail]
        rw [show chainIds h (g2 + 1 + 1) (some fid)
              = fid :: chainIds h (g2 + 1) ((h fid).f_back) from rfl, hb]
        rw [show chainIds h (g2 + 1) (some fid2)
              = fid2 :: chainIds h g2 ((h fid2).f_back) from rfl]
        simp

/-- C4: `parents` skips the frame's first caller and collects from the
caller's caller onward — it equals the caller chain of the frame
(`chainIds` from `f_back`, nearest ancestor first) with its first element
dropped — and for a frame whose whole stack (itself included) is `D` frames
deep, the produced chain has length `D - 2` (truncated subtraction).  The
walk stops at the stack base, where the caller reference is absent. -/
theorem viperFrame_parents_skip_one {α : Type} (h : Heap) (t : ViperFrame → α)
    (fuel fid D : Nat) (hd : stackDepth h fuel (some fid) = some D) :
    (ViperFrame.init h fid).parents h fuel t
      = ((chainIds h fuel ((h fid).f_back)).drop 1).map
          (fun i => t (ViperFrame.init h i))
    ∧ ((ViperFrame.init h fid).parents h fuel t).length = D - 2 := by
  obtain ⟨g, rfl⟩ : ∃ g, fuel = g + 1 := by
    cases fuel with
    | zero => simp [stackDepth] at hd
    | succ g => exact ⟨g, rfl⟩
  simp only [stackDepth, Option.map_eq_some'] at hd
  obtain ⟨m, hm, rfl⟩ := hd
  have hm2 : stackDepth h (g + 1) ((h fid).f_back) = some m :=
    stackDepth_mono h g (g + 1) ((h fid).f_back) m hm (Nat.le_succ g)
  have he := parentsLoop_eq_chain h t (g + 1) ((h fid).f_back) m hm2
  have hl := chainIds_length h (g + 1) ((h fid).f_back) m hm2
  have hpar : (ViperFrame.init h fid).parents h (g + 1) t
      = parentsLoop h t (g + 1) ((h fid).f_back) := rfl
  constructor
  · rw [hpar, he]
  · rw [hpar, he, List.length_map, List.length_drop, hl]
    omega

/-- Witness for C4: on the depth-four stack `h4` (frame `0` called by `1`
called by `2` called by `3`), the parent chain of frame `0` has length
`4 - 2 = 2`. -/
theorem viperFrame_parents_skip_one_w :
    stackDepth h4 10 (some 0) = some 4
    ∧ ((ViperFrame.init h4 0).parents h4 10 (fun vf => vf.fn_name)).length = 4 - 2 :=
  ⟨rfl, (viperFrame_parents_skip_one h4 (fun vf => vf.fn_name) 10 0 4 rfl).2⟩

/-- C5: on every occurrence processed while the engine is running, the very
first step of the wrapper disables the hook (and is the only step executed
with the hook still installed); every classification, filtering,
transforming, or writing step executes with the hook uninstalled, so no
nested occurrence can be observed by this engine during processing; and the
hook is re-enabled, if at all, only as the final step, after all processing
(including the write, when one happens) has completed. -/
theorem trace_wrapper_disables_hook_first (p : PipelineFns) (h : Heap)
    (fid : FrameId) (event : String) (arg : PyVal) :
    (trace_wrapper p h fid event arg).steps.head? = some (Step.setTrace false, true)
    ∧ ((trace_wrapper p h fid event arg).steps.all
        fun sb => !(sb.1.isProcessing && sb.2)) = true
    ∧ ((trace_wrapper p h fid event arg).steps.dropLast.all
        fun sb => sb.1 != Step.setTrace true) = true := by
  cases hn : ViperEvent.new h fid event arg with
  | error e =>
    simp only [trace_wrapper, hn]
    exact ⟨rfl, rfl, rfl⟩
  | ok ev =>
    cases hf : p.filter ev with
    | error e =>
      simp only [trace_wrapper, hn, hf]
      exact ⟨rfl, rfl, rfl⟩
    | ok b =>
      cases b with
      | false =>
        simp only [trace_wrapper, hn, hf]
        exact ⟨rfl, rfl, rfl⟩
      | true =>
        cases ht : p.transform ev with
        | error e =>
          simp only [trace_wrapper, hn, hf, ht]
          exact ⟨rfl, rfl, rfl⟩
        | ok m =>
          cases hw : p.writer m with
          | error e =>
            simp only [trace_wrapper, hn, hf, ht, hw]
            exact ⟨rfl, rfl, rfl⟩
          | ok u =>
            simp only [trace_wrapper, hn, hf, ht, hw]
            exact ⟨rfl, rfl, rfl⟩

/-- C7: when the filter rejects the occurrence's event (returns `False`),
the wrapper executes no transform step and no write step — so no record is
written for that occurrence — and the wrapper returns normally. -/
theorem trace_wrapper_reject_no_write (p : PipelineFns) (h : Heap)
    (fid : FrameId) (event : String) (arg : PyVal) (ev : ViperEventObj)
    (hn : ViperEvent.new h fid event arg = Except.ok ev)
    (hf : p.filter ev = Except.ok false) :
    ((trace_wrapper p h fid event arg).steps.all
      fun sb => sb.1 != Step.transformStep && sb.1 != Step.writeStep) = true
    ∧ (trace_wrapper p h fid event arg).outcome = Except.ok () := by
  simp only [trace_wrapper, hn, hf]
  refine ⟨?_, ?_⟩ <;> trivial

/-- Witness for C7: a reject-all pipeline on a concrete `call` occurrence. -/
theorem trace_wrapper_reject_no_write_w :
    ((trace_wrapper pReject h1 0 "call" (PyVal.int 1)).steps.all
      fun sb => sb.1 != Step.transformStep && sb.1 != Step.writeStep) = true
    ∧ (trace_wrapper pReject h1 0 "call" (PyVal.int 1)).outcome = Except.ok () :=
  trace_wrapper_reject_no_write pReject h1 0 "call" (PyVal.int 1) evCall1 rfl rfl

/-- C8 counterexample: the default filter does not return `False` — on a
concrete event it raises `NotImplementedError` instead, refuting the claim
that invoking it yields `false` for every event. -/
theorem viper_default_filter_not_false :
    Viper.filter evCall1 ≠ Except.ok false := by
  simp [Viper.filter]

/-- C8 as amended: the default filter, used when the caller supplies no
filter of their own, raises `NotImplementedError('you need to implement
filter')` for every event rather than returning `false`; consequently no
occurrence is transformed or written under the default pipeline (the error
propagates before the transform or write step could run). -/
theorem viper_default_filter_raises (ev : ViperEventObj) :
    Viper.filter ev
      = Except.error (PyErr.notImplementedError "you need to implement filter")
    ∧ ∀ (h : Heap) (fid : FrameId) (event : String) (arg : PyVal),
        ((trace_wrapper defaultPipeline h fid event arg).steps.all
          fun sb => sb.1 != Step.transformStep && sb.1 != Step.writeStep) = true := by
  refine ⟨rfl, ?_⟩
  intro h fid event arg
  cases hn : ViperEvent.new h fid event arg with
  | error e =>
    simp only [trace_wrapper, hn]
    rfl
  | ok evx =>
    simp only [trace_wrapper, hn, defaultPipeline, Viper.filter]
    rfl

/-- C9: if the filter, transform, or writer raises while processing one
occurrence, the wrapper propagates exactly that error to the host, and at
the moment it propagates the trace hook is already uninstalled — the host
is never left with an installed, recursing hook after a fatal pipeline
error. -/
theorem trace_wrapper_error_uninstalls (p : PipelineFns) (h : Heap)
    (fid : FrameId) (event : String) (arg : PyVal) (ev : ViperEventObj)
    (e : PyErr) (hn : ViperEvent.new h fid event arg = Except.ok ev)
    (hr : StageRaises p ev e) :
    (trace_wrapper p h fid event arg).outcome = Except.error e
    ∧ (trace_wrapper p h fid event arg).hookAfter = false := by
  rcases hr with hfe | ⟨hft, hte⟩ | ⟨hft, m, htm, hwe⟩
  · simp only [trace_wrapper, hn, hfe]
    refine ⟨?_, ?_⟩ <;> trivial
  · simp only [trace_wrapper, hn, hft, hte]
    refine ⟨?_, ?_⟩ <;> trivial
  · simp only [trace_wrapper, hn, hft, htm, hwe]
    refine ⟨?_, ?_⟩ <;> trivial

/-- Witness for C9: a pipeline whose writer raises `Exception('boom')` on a
concrete `call` occurrence: the error propagates and the hook is left
uninstalled. -/
theorem trace_wrapper_error_uninstalls_w :
    (trace_wrapper pBoom h1 0 "call" (PyVal.int 1)).outcome
      = Except.error (PyErr.exception "boom")
    ∧ (trace_wrapper pBoom h1 0 "call" (PyVal.int 1)).hookAfter = false :=
  trace_wrapper_error_uninstalls pBoom h1 0 "call" (PyVal.int 1) evCall1
    (PyErr.exception "boom") rfl (Or.inr (Or.inr ⟨rfl, [], rfl, rfl⟩))

/-- C10: whenever the frame's argument mapping is readable, the child-frame
output mapping has exactly the keys `type`, `parents`, `fn_name`,
`fn_line`, `args`, `fn_filename`, `time`, `epoch` (in insertion order), and
its `args` field is not the argument mapping itself but a one-element list
whose sole element is the frame's argument mapping. -/
theorem viperChildFrame_transform_shape (h : Heap) (fuel : Nat) (clock : Clock)
    (vf : ViperFrame) (args : List (String × String))
    (ha : vf.arguments h = Except.ok args) :
    (ViperChildFrame.transform h fuel clock vf).map (fun out => out.map Prod.fst)
      = Except.ok ["type", "parents", "fn_name", "fn_line", "args",
                   "fn_filename", "time", "epoch"]
    ∧ (ViperChildFrame.transform h fuel clock vf).map (fun out => out.lookup "args")
      = Except.ok (some (OutVal.list
          [OutVal.dict (args.map (fun kv => (kv.1, OutVal.str kv.2)))])) := by
  unfold ViperChildFrame.transform
  rw [ha]
  exact ⟨rfl, rfl⟩

/-- Witness for C10: the snapshot of frame `0` under `h1`, whose argument
mapping is `num = 1`. -/
theorem viperChildFrame_transform_shape_w :
    (ViperChildFrame.transform h1 5 clock0 (ViperFrame.init h1 0)).map
        (fun out => out.map Prod.fst)
      = Except.ok ["type", "parents", "fn_name", "fn_line", "args",
                   "fn_filename", "time", "epoch"]
    ∧ (ViperChildFrame.transform h1 5 clock0 (ViperFrame.init h1 0)).map
        (fun out => out.lookup "args")
      = Except.ok (some (OutVal.list
          [OutVal.dict ([("num", "1")].map (fun kv => (kv.1, OutVal.str kv.2)))])) :=
  viperChildFrame_transform_shape h1 5 clock0 (ViperFrame.init h1 0)
    [("num", "1")] rfl
